import Mathlib

/-!
# go-metaforce: the `Client` facade of `client.go`

A shallow embedding of `client.go` (package `metaforce`): the `Client` record, the session
operations (`Login`, `UseExistingSession`, `SetAccessToken`, `SetApiVersion`, `SetLoginUrl`)
and the fourteen request-building facade operations, over a model of the transport port
(`MetadataPortType`) that records every call it is asked to perform.
-/

namespace Metaforce

/-! ## Standard base64 (`encoding/base64`, `StdEncoding`) -/

/-- A Go `byte`. -/
abbrev Byte := Fin 256

/-- The alphabet of `base64.StdEncoding` (RFC 4648, section 4). -/
def encodeStd : List Char :=
  "ABCDEFGHIJKLMNOPQRSTUVWXYZabcdefghijklmnopqrstuvwxyz0123456789+/".data

/-- The padding character of `base64.StdEncoding`. -/
def StdPadding : Char := '='

/-- Table lookup `enc.encode[i]`. -/
def encodeIdx (i : Nat) : Char := encodeStd.getD i StdPadding

/-- The reverse table `enc.decodeMap`: the index of an alphabet character, `none` for any
other character. -/
def decodeMap (c : Char) : Option Nat :=
  let i := encodeStd.indexOf c
  if i < 64 then some i else none

/-- The standard library's `(*Encoding).Encode` for `StdEncoding`, which `client.go` calls
and which is not part of this repository, with the shifts and masks of its Go source: every
full group of three bytes becomes four alphabet characters, and a remainder of one or two
bytes becomes two or three characters followed by padding up to four. A nil and an empty
byte slice are both the empty list. -/
def Encode : List Byte → List Char
  | a :: b :: c :: rest =>
    let val := a.val <<< 16 ||| b.val <<< 8 ||| c.val
    encodeIdx (val >>> 18 &&& 0x3F) :: encodeIdx (val >>> 12 &&& 0x3F) ::
      encodeIdx (val >>> 6 &&& 0x3F) :: encodeIdx (val &&& 0x3F) :: Encode rest
  | [a, b] =>
    let val := a.val <<< 16 ||| b.val <<< 8
    [encodeIdx (val >>> 18 &&& 0x3F), encodeIdx (val >>> 12 &&& 0x3F),
      encodeIdx (val >>> 6 &&& 0x3F), StdPadding]
  | [a] =>
    let val := a.val <<< 16
    [encodeIdx (val >>> 18 &&& 0x3F), encodeIdx (val >>> 12 &&& 0x3F), StdPadding, StdPadding]
  | [] => []

/-- The call `base64.StdEncoding.EncodeToString(buf)`. -/
def EncodeToString (buf : List Byte) : String := String.mk (Encode buf)

/-- Truncation of a machine word to a `byte`. -/
def toByte (n : Nat) : Byte := ⟨n % 256, Nat.mod_lt _ (by decide)⟩

/-- Standard padded base64 decoding (RFC 4648, section 4) of a character sequence: groups of
four characters, where only the last group may end in one or two padding characters; any
other input is corrupt (`none`). -/
def Decode : List Char → Option (List Byte)
  | [] => some []
  | c0 :: c1 :: c2 :: c3 :: rest =>
    if rest = [] ∧ c3 = StdPadding then
      if c2 = StdPadding then
        match decodeMap c0, decodeMap c1 with
        | some s0, some s1 =>
          let val := s0 <<< 18 ||| s1 <<< 12
          some [toByte (val >>> 16)]
        | _, _ => none
      else
        match decodeMap c0, decodeMap c1, decodeMap c2 with
        | some s0, some s1, some s2 =>
          let val := s0 <<< 18 ||| s1 <<< 12 ||| s2 <<< 6
          some [toByte (val >>> 16), toByte (val >>> 8)]
        | _, _, _ => none
    else
      match decodeMap c0, decodeMap c1, decodeMap c2, decodeMap c3 with
      | some s0, some s1, some s2, some s3 =>
        let val := s0 <<< 18 ||| s1 <<< 12 ||| s2 <<< 6 ||| s3
        (Decode rest).map
          (fun tl => toByte (val >>> 16) :: toByte (val >>> 8) :: toByte val :: tl)
      | _, _, _, _ => none
  | _ => none

/-- Standard padded base64 decoding of a string. -/
def DecodeString (s : String) : Option (List Byte) := Decode s.data

/-! ## Declarations of the package that live outside `client.go` -/

/-- The operations offered by the metadata port. -/
inductive Op
  | Login | Deploy | CheckDeployStatus | CancelDeploy | DescribeMetadata | DescribeValueType
  | ListMetadata | CreateMetadata | DeleteMetadata | ReadMetadata | Retrieve | RenameMetadata
  | UpdateMetadata | UpsertMetadata | DeployRecentValidation
  deriving DecidableEq, Repr

/-- The types and the one library function that `client.go` uses but does not declare: the
payload structs it only passes along, the typed response of every port operation other than
`Login`, Go's `error` and `float64`, `strconv.ParseFloat(s, 32)` (value and error flag) and
the literal `37.0`. -/
structure Decls where
  DeployOptions : Type
  ListMetadataQuery : Type
  MetadataInterface : Type
  RetrieveRequest : Type
  RenameMetadata : Type
  Response : Op → Type
  error : Type
  float64 : Type
  ParseFloat : String → float64 × Option error
  lit37 : float64

/-- The Go type `ID`, a named string type; the conversion `ID(s)` is the identity. -/
abbrev ID := String

/-- The header `SessionHeader{SessionId: ...}`. -/
structure SessionHeader where
  SessionId : String
  deriving DecidableEq, Repr

/-- The request of the login call. -/
structure LoginRequest where
  Username : String
  Password : String
  deriving DecidableEq, Repr

/-- The fields of `LoginResult` that `client.go` reads. -/
structure LoginResult where
  MetadataServerUrl : String
  SessionId : String
  deriving DecidableEq, Repr

/-- The response of the login call. -/
structure LoginResponse where
  LoginResult : LoginResult
  deriving DecidableEq, Repr

/-- The request struct `Deploy`. -/
structure Deploy (D : Decls) where
  ZipFile : String
  DeployOptions : Option D.DeployOptions

/-- The request struct `CheckDeployStatus`. -/
structure CheckDeployStatus where
  AsyncProcessId : ID
  IncludeDetails : Bool
  deriving DecidableEq, Repr

/-- The request struct `CancelDeploy`. -/
structure CancelDeploy where
  AsyncProcessId : ID
  deriving DecidableEq, Repr

/-- The request struct `DescribeMetadata`. -/
structure DescribeMetadata (D : Decls) where
  AsOfVersion : D.float64

/-- The request struct `DescribeValueType` (its field is `Type` in Go). -/
structure DescribeValueType where
  Type_ : String
  deriving DecidableEq, Repr

/-- The request struct `ListMetadata`. -/
structure ListMetadata (D : Decls) where
  Queries : List (Option D.ListMetadataQuery)
  AsOfVersion : D.float64

/-- The request struct `CreateMetadata`. -/
structure CreateMetadata (D : Decls) where
  Metadata : List D.MetadataInterface

/-- The request struct `DeleteMetadata` (its second field is `Type` in Go). -/
structure DeleteMetadata where
  FullNames : List String
  Type_ : String
  deriving DecidableEq, Repr

/-- The request struct `ReadMetadata` (its second field is `Type` in Go). -/
structure ReadMetadata where
  FullNames : List String
  Type_ : String
  deriving DecidableEq, Repr

/-- The request struct `Retrieve`. -/
structure Retrieve (D : Decls) where
  RetrieveRequest : Option D.RetrieveRequest

/-- The request struct `UpdateMetadata`. -/
structure UpdateMetadata (D : Decls) where
  Metadata : List D.MetadataInterface

/-- The request struct `UpsertMetadata`. -/
structure UpsertMetadata (D : Decls) where
  Metadata : List D.MetadataInterface

/-- The request struct `DeployRecentValidation`. -/
structure DeployRecentValidation where
  ValidationId : ID
  deriving DecidableEq, Repr

/-- A request handed to the port: which operation, with its payload. `RenameMetadata` receives
the caller's pointer, which may be nil. -/
inductive Request (D : Decls)
  | Login (r : LoginRequest)
  | Deploy (r : Metaforce.Deploy D)
  | CheckDeployStatus (r : Metaforce.CheckDeployStatus)
  | CancelDeploy (r : Metaforce.CancelDeploy)
  | DescribeMetadata (r : Metaforce.DescribeMetadata D)
  | DescribeValueType (r : Metaforce.DescribeValueType)
  | ListMetadata (r : Metaforce.ListMetadata D)
  | CreateMetadata (r : Metaforce.CreateMetadata D)
  | DeleteMetadata (r : Metaforce.DeleteMetadata)
  | ReadMetadata (r : Metaforce.ReadMetadata)
  | Retrieve (r : Metaforce.Retrieve D)
  | RenameMetadata (r : Option D.RenameMetadata)
  | UpdateMetadata (r : Metaforce.UpdateMetadata D)
  | UpsertMetadata (r : Metaforce.UpsertMetadata D)
  | DeployRecentValidation (r : Metaforce.DeployRecentValidation)

/-- The operation a request belongs to. -/
def Request.op {D : Decls} : Request D → Op
  | .Login _ => .Login
  | .Deploy _ => .Deploy
  | .CheckDeployStatus _ => .CheckDeployStatus
  | .CancelDeploy _ => .CancelDeploy
  | .DescribeMetadata _ => .DescribeMetadata
  | .DescribeValueType _ => .DescribeValueType
  | .ListMetadata _ => .ListMetadata
  | .CreateMetadata _ => .CreateMetadata
  | .DeleteMetadata _ => .DeleteMetadata
  | .ReadMetadata _ => .ReadMetadata
  | .Retrieve _ => .Retrieve
  | .RenameMetadata _ => .RenameMetadata
  | .UpdateMetadata _ => .UpdateMetadata
  | .UpsertMetadata _ => .UpsertMetadata
  | .DeployRecentValidation _ => .DeployRecentValidation

/-- The typed response of an operation: `LoginResponse` for the login call, the declared
response type otherwise. -/
@[reducible] def ResponseOf (D : Decls) : Op → Type
  | .Login => LoginResponse
  | o => D.Response o

/-- The Go result pair `(*Response, error)` of a port method: either component may be nil. -/
abbrev Result (D : Decls) (o : Op) := Option (ResponseOf D o) × Option D.error

/-! ## The transport port -/

/-- One call performed by the port: the header and target installed at call time, and the
request. -/
structure Call (D : Decls) where
  header : Option SessionHeader
  url : String
  request : Request D

/-- Modelled from the spec: the transport port `MetadataPortType`, declared outside
`client.go`. It holds the cross-cutting state applied to every call (the target set by
`SetServerUrl`, the header set by `SetHeader`), the arguments it was constructed with, and a
record of the calls it has performed. -/
structure MetadataPortType (D : Decls) where
  url : String
  tls : Bool
  header : Option SessionHeader
  calls : List (Call D)

/-- Modelled from the spec: what the remote side answers, `call(operationName, header,
requestPayload) -> (responsePayload, error)`; it may depend on the whole state of the port,
the earlier calls included. -/
abbrev Transport (D : Decls) := (p : MetadataPortType D) → (r : Request D) → Result D r.op

/-- Modelled from the spec: `NewMetadataPortType(url, tls, auth)`; `client.go` always passes
a nil `auth`. No header is installed and no call has been made. -/
def NewMetadataPortType (D : Decls) (url : String) (tls : Bool) : MetadataPortType D :=
  { url := url, tls := tls, header := none, calls := [] }

/-- Modelled from the spec: `setHeader(header)` replaces the header applied to every
subsequent call. -/
def MetadataPortType.SetHeader {D : Decls} (p : MetadataPortType D) (h : SessionHeader) :
    MetadataPortType D :=
  { p with header := some h }

/-- Modelled from the spec: `setTarget(endpointURL)` replaces the target of every subsequent
call. -/
def MetadataPortType.SetServerUrl {D : Decls} (p : MetadataPortType D) (url : String) :
    MetadataPortType D :=
  { p with url := url }

/-- Modelled from the spec: one synchronous call. The port sends the request with the header
and target currently installed, records it, and returns the remote side's answer; header and
target stay as they are. -/
def MetadataPortType.call {D : Decls} (t : Transport D) (p : MetadataPortType D)
    (r : Request D) : Result D r.op × MetadataPortType D :=
  (t p r, { p with calls := p.calls ++ [{ header := p.header, url := p.url, request := r }] })

/-- Modelled from the spec: the port method `Login`, one call of that operation. -/
def MetadataPortType.Login {D : Decls} (t : Transport D) (p : MetadataPortType D)
    (request : LoginRequest) : Result D .Login × MetadataPortType D :=
  p.call t (.Login request)

/-- Modelled from the spec: the port method `Deploy`, one call of that operation. -/
def MetadataPortType.Deploy {D : Decls} (t : Transport D) (p : MetadataPortType D)
    (request : Metaforce.Deploy D) : Result D .Deploy × MetadataPortType D :=
  p.call t (.Deploy request)

/-- Modelled from the spec: the port method `CheckDeployStatus`, one call of that operation. -/
def MetadataPortType.CheckDeployStatus {D : Decls} (t : Transport D) (p : MetadataPortType D)
    (request : Metaforce.CheckDeployStatus) : Result D .CheckDeployStatus × MetadataPortType D :=
  p.call t (.CheckDeployStatus request)

/-- Modelled from the spec: the port method `CancelDeploy`, one call of that operation. -/
def MetadataPortType.CancelDeploy {D : Decls} (t : Transport D) (p : MetadataPortType D)
    (request : Metaforce.CancelDeploy) : Result D .CancelDeploy × MetadataPortType D :=
  p.call t (.CancelDeploy request)

/-- Modelled from the spec: the port method `DescribeMetadata`, one call of that operation. -/
def MetadataPortType.DescribeMetadata {D : Decls} (t : Transport D) (p : MetadataPortType D)
    (request : Metaforce.DescribeMetadata D) : Result D .DescribeMetadata × MetadataPortType D :=
  p.call t (.DescribeMetadata request)

/-- Modelled from the spec: the port method `DescribeValueType`, one call of that operation. -/
def MetadataPortType.DescribeValueType {D : Decls} (t : Transport D) (p : MetadataPortType D)
    (request : Metaforce.DescribeValueType) : Result D .DescribeValueType × MetadataPortType D :=
  p.call t (.DescribeValueType request)

/-- Modelled from the spec: the port method `ListMetadata`, one call of that operation. -/
def MetadataPortType.ListMetadata {D : Decls} (t : Transport D) (p : MetadataPortType D)
    (request : Metaforce.ListMetadata D) : Result D .ListMetadata × MetadataPortType D :=
  p.call t (.ListMetadata request)

/-- Modelled from the spec: the port method `CreateMetadata`, one call of that operation. -/
def MetadataPortType.CreateMetadata {D : Decls} (t : Transport D) (p : MetadataPortType D)
    (request : Metaforce.CreateMetadata D) : Result D .CreateMetadata × MetadataPortType D :=
  p.call t (.CreateMetadata request)

/-- Modelled from the spec: the port method `DeleteMetadata`, one call of that operation. -/
def MetadataPortType.DeleteMetadata {D : Decls} (t : Transport D) (p : MetadataPortType D)
    (request : Metaforce.DeleteMetadata) : Result D .DeleteMetadata × MetadataPortType D :=
  p.call t (.DeleteMetadata request)

/-- Modelled from the spec: the port method `ReadMetadata`, one call of that operation. -/
def MetadataPortType.ReadMetadata {D : Decls} (t : Transport D) (p : MetadataPortType D)
    (request : Metaforce.ReadMetadata) : Result D .ReadMetadata × MetadataPortType D :=
  p.call t (.ReadMetadata request)

/-- Modelled from the spec: the port method `Retrieve`, one call of that operation. -/
def MetadataPortType.Retrieve {D : Decls} (t : Transport D) (p : MetadataPortType D)
    (request : Metaforce.Retrieve D) : Result D .Retrieve × MetadataPortType D :=
  p.call t (.Retrieve request)

/-- Modelled from the spec: the port method `RenameMetadata`, one call of that operation. -/
def MetadataPortType.RenameMetadata {D : Decls} (t : Transport D) (p : MetadataPortType D)
    (request : Option D.RenameMetadata) : Result D .RenameMetadata × MetadataPortType D :=
  p.call t (.RenameMetadata request)

/-- Modelled from the spec: the port method `UpdateMetadata`, one call of that operation. -/
def MetadataPortType.UpdateMetadata {D : Decls} (t : Transport D) (p : MetadataPortType D)
    (request : Metaforce.UpdateMetadata D) : Result D .UpdateMetadata × MetadataPortType D :=
  p.call t (.UpdateMetadata request)

/-- Modelled from the spec: the port method `UpsertMetadata`, one call of that operation. -/
def MetadataPortType.UpsertMetadata {D : Decls} (t : Transport D) (p : MetadataPortType D)
    (request : Metaforce.UpsertMetadata D) : Result D .UpsertMetadata × MetadataPortType D :=
  p.call t (.UpsertMetadata request)

/-- Modelled from the spec: the port method `DeployRecentValidation`, one call of that operation. -/
def MetadataPortType.DeployRecentValidation {D : Decls} (t : Transport D) (p : MetadataPortType D)
    (request : Metaforce.DeployRecentValidation) : Result D .DeployRecentValidation × MetadataPortType D :=
  p.call t (.DeployRecentValidation request)

/-! ## `client.go` -/

/-- The constant `DefaultApiVersion`. -/
def DefaultApiVersion : String := "50.0"

/-- The constant `DefaultLoginUrl`. -/
def DefaultLoginUrl : String := "login.salesforce.com"

/-- The struct `Client`; `portType` is the port the pointer refers to, `loginResult` is nil
until a login succeeds. -/
structure Client (D : Decls) where
  ApiVersion : String
  ServerUrl : String
  LoginUrl : String
  portType : MetadataPortType D
  loginResult : Option LoginResult
  debug : Bool

/-- What a Go call does: it returns a value, or it stops in a run-time panic. -/
inductive Outcome (α : Type)
  | returned (a : α)
  | panicked
  deriving DecidableEq, Repr

/-- The function `NewClient`. -/
def NewClient (D : Decls) : Client D :=
  let portType := NewMetadataPortType D "" true
  { portType := portType
    LoginUrl := DefaultLoginUrl
    ApiVersion := DefaultApiVersion
    ServerUrl := ""
    loginResult := none
    debug := false }

/-- The function `NewDebugClient`. -/
def NewDebugClient (D : Decls) : Client D :=
  let portType := NewMetadataPortType D "" true
  { portType := portType
    LoginUrl := DefaultLoginUrl
    ApiVersion := DefaultApiVersion
    ServerUrl := ""
    loginResult := none
    debug := true }

/-- The method `setLoginUrl`: `fmt.Sprintf("https://%s/services/Soap/u/%s", c.LoginUrl,
c.ApiVersion)` is installed as the port's target. -/
def Client.setLoginUrl {D : Decls} (c : Client D) : Client D :=
  let url := "https://" ++ c.LoginUrl ++ "/services/Soap/u/" ++ c.ApiVersion
  { c with portType := c.portType.SetServerUrl url }

/-- The method `SetApiVersion`. -/
def Client.SetApiVersion {D : Decls} (c : Client D) (v : String) : Client D :=
  let c1 := { c with ApiVersion := v }
  c1.setLoginUrl

/-- The method `SetAccessToken`. -/
def Client.SetAccessToken {D : Decls} (c : Client D) (sid : String) : Client D :=
  let sessionHeader : SessionHeader := { SessionId := sid }
  { c with portType := c.portType.SetHeader sessionHeader }

/-- The method `SetLoginUrl`. -/
def Client.SetLoginUrl {D : Decls} (c : Client D) (url : String) : Client D :=
  let c1 := { c with LoginUrl := url }
  c1.setLoginUrl

/-- The method `Login`. It returns the error value (nil when the login succeeded) and the
client afterwards; with neither a response nor an error from the port, taking the address of
`loginResponse.LoginResult` dereferences nil and the call panics. -/
def Client.Login {D : Decls} (t : Transport D) (c : Client D) (username password : String) :
    Outcome (Option D.error) × Client D :=
  let loginRequest : LoginRequest := { Username := username, Password := password }
  let (res, port) := c.portType.Login t loginRequest
  let c1 := { c with portType := port }
  match res.2 with
  | some err => (.returned (some err), c1)
  | none =>
    match res.1 with
    | none => (.panicked, c1)
    | some loginResponse =>
      let c2 := { c1 with loginResult := some loginResponse.LoginResult }
      let stored := loginResponse.LoginResult
      let sessionHeader : SessionHeader := { SessionId := stored.SessionId }
      let c3 := { c2 with portType := c2.portType.SetHeader sessionHeader }
      let c4 := { c3 with portType := c3.portType.SetServerUrl stored.MetadataServerUrl }
      (.returned none, c4)

/-- The method `UseExistingSession`. -/
def Client.UseExistingSession {D : Decls} (c : Client D) (SessionId MetadataServerUrl : String) :
    Client D :=
  let sessionHeader : SessionHeader := { SessionId := SessionId }
  let c1 := { c with portType := c.portType.SetHeader sessionHeader }
  { c1 with portType := c1.portType.SetServerUrl MetadataServerUrl }

/-- The method `Deploy`. -/
def Client.Deploy {D : Decls} (t : Transport D) (c : Client D) (buf : List Byte)
    (options : Option D.DeployOptions) : Result D .Deploy × Client D :=
  let request : Metaforce.Deploy D :=
    { ZipFile := EncodeToString buf
      DeployOptions := options }
  let (res, port) := c.portType.Deploy t request
  (res, { c with portType := port })

/-- The method `CheckDeployStatus`. -/
def Client.CheckDeployStatus {D : Decls} (t : Transport D) (c : Client D) (resultId : String)
    (includeDetails : Bool) : Result D .CheckDeployStatus × Client D :=
  let request : Metaforce.CheckDeployStatus :=
    { AsyncProcessId := resultId, IncludeDetails := includeDetails }
  let (res, port) := c.portType.CheckDeployStatus t request
  (res, { c with portType := port })

/-- The method `CancelDeploy`. -/
def Client.CancelDeploy {D : Decls} (t : Transport D) (c : Client D) (processId : String) :
    Result D .CancelDeploy × Client D :=
  let request : Metaforce.CancelDeploy := { AsyncProcessId := processId }
  let (res, port) := c.portType.CancelDeploy t request
  (res, { c with portType := port })

/-- The version number sent by `DescribeMetadata` and `ListMetadata`:
`strconv.ParseFloat(c.ApiVersion, 32)`, replaced by `37.0` when parsing fails. -/
def Client.asOfVersion {D : Decls} (c : Client D) : D.float64 :=
  let (f, err) := D.ParseFloat c.ApiVersion
  match err with
  | some _ => D.lit37
  | none => f

/-- The method `DescribeMetadata`. -/
def Client.DescribeMetadata {D : Decls} (t : Transport D) (c : Client D) :
    Result D .DescribeMetadata × Client D :=
  let f := c.asOfVersion
  let request : Metaforce.DescribeMetadata D := { AsOfVersion := f }
  let (res, port) := c.portType.DescribeMetadata t request
  (res, { c with portType := port })

/-- The method `DescribeValueType`. -/
def Client.DescribeValueType {D : Decls} (t : Transport D) (c : Client D) (desc_type : String) :
    Result D .DescribeValueType × Client D :=
  let request : Metaforce.DescribeValueType := { Type_ := desc_type }
  let (res, port) := c.portType.DescribeValueType t request
  (res, { c with portType := port })

/-- The method `ListMetadata`. -/
def Client.ListMetadata {D : Decls} (t : Transport D) (c : Client D)
    (listMetadataQuery : List (Option D.ListMetadataQuery)) :
    Result D .ListMetadata × Client D :=
  let f := c.asOfVersion
  let request : Metaforce.ListMetadata D :=
    { Queries := listMetadataQuery
      AsOfVersion := f }
  let (res, port) := c.portType.ListMetadata t request
  (res, { c with portType := port })

/-- The method `CreateMetadata`. -/
def Client.CreateMetadata {D : Decls} (t : Transport D) (c : Client D)
    (metadata : List D.MetadataInterface) : Result D .CreateMetadata × Client D :=
  let request : Metaforce.CreateMetadata D := { Metadata := metadata }
  let (res, port) := c.portType.CreateMetadata t request
  (res, { c with portType := port })

/-- The method `DeleteMetadata`. -/
def Client.DeleteMetadata {D : Decls} (t : Transport D) (c : Client D) (typeName : String)
    (fullNames : List String) : Result D .DeleteMetadata × Client D :=
  let request : Metaforce.DeleteMetadata :=
    { FullNames := fullNames
      Type_ := typeName }
  let (res, port) := c.portType.DeleteMetadata t request
  (res, { c with portType := port })

/-- The method `ReadMetadata`. -/
def Client.ReadMetadata {D : Decls} (t : Transport D) (c : Client D) (typeName : String)
    (fullNames : List String) : Result D .ReadMetadata × Client D :=
  let request : Metaforce.ReadMetadata :=
    { FullNames := fullNames
      Type_ := typeName }
  let (res, port) := c.portType.ReadMetadata t request
  (res, { c with portType := port })

/-- The method `Retrieve`. -/
def Client.Retrieve {D : Decls} (t : Transport D) (c : Client D)
    (retrieveRequest : Option D.RetrieveRequest) : Result D .Retrieve × Client D :=
  let r : Metaforce.Retrieve D := { RetrieveRequest := retrieveRequest }
  let (res, port) := c.portType.Retrieve t r
  (res, { c with portType := port })

/-- The method `RenameMetadata`. -/
def Client.RenameMetadata {D : Decls} (t : Transport D) (c : Client D)
    (r : Option D.RenameMetadata) : Result D .RenameMetadata × Client D :=
  let (res, port) := c.portType.RenameMetadata t r
  (res, { c with portType := port })

/-- The method `UpdateMetadata`. -/
def Client.UpdateMetadata {D : Decls} (t : Transport D) (c : Client D)
    (metadata : List D.MetadataInterface) : Result D .UpdateMetadata × Client D :=
  let (res, port) := c.portType.UpdateMetadata t { Metadata := metadata }
  (res, { c with portType := port })

/-- The method `UpsertMetadata`. -/
def Client.UpsertMetadata {D : Decls} (t : Transport D) (c : Client D)
    (metadata : List D.MetadataInterface) : Result D .UpsertMetadata × Client D :=
  let (res, port) := c.portType.UpsertMetadata t { Metadata := metadata }
  (res, { c with portType := port })

/-- The method `DeployRecentValidation`. -/
def Client.DeployRecentValidation {D : Decls} (t : Transport D) (c : Client D)
    (validationId : String) : Result D .DeployRecentValidation × Client D :=
  let (res, port) := c.portType.DeployRecentValidation t { ValidationId := validationId }
  (res, { c with portType := port })

/-! ## Notions used to state the properties -/

/-- One invocation of a dispatching facade operation, with its arguments. -/
inductive Invocation (D : Decls)
  | Login (username password : String)
  | Deploy (buf : List Byte) (options : Option D.DeployOptions)
  | CheckDeployStatus (resultId : String) (includeDetails : Bool)
  | CancelDeploy (processId : String)
  | DescribeMetadata
  | DescribeValueType (desc_type : String)
  | ListMetadata (listMetadataQuery : List (Option D.ListMetadataQuery))
  | CreateMetadata (metadata : List D.MetadataInterface)
  | DeleteMetadata (typeName : String) (fullNames : List String)
  | ReadMetadata (typeName : String) (fullNames : List String)
  | Retrieve (retrieveRequest : Option D.RetrieveRequest)
  | RenameMetadata (r : Option D.RenameMetadata)
  | UpdateMetadata (metadata : List D.MetadataInterface)
  | UpsertMetadata (metadata : List D.MetadataInterface)
  | DeployRecentValidation (validationId : String)

/-- The client after an invocation. -/
def Client.invoke {D : Decls} (t : Transport D) (c : Client D) : Invocation D → Client D
  | .Login username password => (c.Login t username password).2
  | .Deploy buf options => (c.Deploy t buf options).2
  | .CheckDeployStatus resultId includeDetails => (c.CheckDeployStatus t resultId includeDetails).2
  | .CancelDeploy processId => (c.CancelDeploy t processId).2
  | .DescribeMetadata => (c.DescribeMetadata t).2
  | .DescribeValueType desc_type => (c.DescribeValueType t desc_type).2
  | .ListMetadata listMetadataQuery => (c.ListMetadata t listMetadataQuery).2
  | .CreateMetadata metadata => (c.CreateMetadata t metadata).2
  | .DeleteMetadata typeName fullNames => (c.DeleteMetadata t typeName fullNames).2
  | .ReadMetadata typeName fullNames => (c.ReadMetadata t typeName fullNames).2
  | .Retrieve retrieveRequest => (c.Retrieve t retrieveRequest).2
  | .RenameMetadata r => (c.RenameMetadata t r).2
  | .UpdateMetadata metadata => (c.UpdateMetadata t metadata).2
  | .UpsertMetadata metadata => (c.UpsertMetadata t metadata).2
  | .DeployRecentValidation validationId => (c.DeployRecentValidation t validationId).2

/-- An operation forwards request `r`: its result is the pair the transport produced for
`r` on the port as it stood, the port has recorded exactly that one call, sent with the
header and target installed at the time, and nothing else of the client has changed. -/
def Forwards {D : Decls} (t : Transport D) (c : Client D) (r : Request D)
    (out : Result D r.op × Client D) : Prop :=
  out.1 = t c.portType r ∧
  out.2.portType.calls
    = c.portType.calls ++ [{ header := c.portType.header, url := c.portType.url, request := r }] ∧
  out.2 = { c with portType := { c.portType with calls := out.2.portType.calls } }

/-- The login endpoint of a client, as `setLoginUrl` formats it from `LoginUrl` and
`ApiVersion`. -/
def Client.loginEndpoint {D : Decls} (c : Client D) : String :=
  "https://" ++ c.LoginUrl ++ "/services/Soap/u/" ++ c.ApiVersion

/-- A session with token `tok` and server URL `u` has just been installed in `s`: by
`UseExistingSession(tok, u)`, or by a `Login` that the transport answered with a login result
carrying `tok` and `u` and no error. -/
def SessionInstalled {D : Decls} (s : Client D) (tok u : String) : Prop :=
  (∃ c : Client D, s = c.UseExistingSession tok u) ∨
  (∃ (t : Transport D) (c : Client D) (username password : String),
    t c.portType (.Login { Username := username, Password := password })
      = (some { LoginResult := { MetadataServerUrl := u, SessionId := tok } }, none) ∧
    s = (c.Login t username password).2)

/-- The access token installed on the port; no header means no token. -/
def Client.accessToken {D : Decls} (c : Client D) : String :=
  match c.portType.header with
  | some h => h.SessionId
  | none => ""

/-- Scan for a URL scheme as Go's `net/url` does: letters anywhere, digits and `+ - .` after
the first character, closed by a colon that is not in first position. -/
def schemeScan : Nat → List Char → Bool
  | _, [] => false
  | i, ch :: cs =>
    if ('a' ≤ ch ∧ ch ≤ 'z') ∨ ('A' ≤ ch ∧ ch ≤ 'Z') then schemeScan (i + 1) cs
    else if ('0' ≤ ch ∧ ch ≤ '9') ∨ ch = '+' ∨ ch = '-' ∨ ch = '.' then
      if i = 0 then false else schemeScan (i + 1) cs
    else if ch = ':' then
      if i = 0 then false else true
    else false

/-- A URL is absolute when it starts with a scheme. -/
def IsAbs (u : String) : Bool := schemeScan 0 u.data

/-- The session invariant of the data model: a non-empty access token implies a non-empty,
absolute server URL. -/
def SessionInvariant {D : Decls} (c : Client D) : Prop :=
  c.accessToken ≠ "" → c.portType.url ≠ "" ∧ IsAbs c.portType.url = true

/-- The client states reachable from `NewClient()` by the public session operations, with
any transport behind `Login`. -/
inductive Reachable {D : Decls} : Client D → Prop
  | NewClient : Reachable (NewClient D)
  | Login (t : Transport D) {c : Client D} (username password : String) :
      Reachable c → Reachable (c.Login t username password).2
  | UseExistingSession {c : Client D} (SessionId MetadataServerUrl : String) :
      Reachable c → Reachable (c.UseExistingSession SessionId MetadataServerUrl)
  | SetAccessToken {c : Client D} (sid : String) :
      Reachable c → Reachable (c.SetAccessToken sid)
  | SetApiVersion {c : Client D} (v : String) :
      Reachable c → Reachable (c.SetApiVersion v)
  | SetLoginUrl {c : Client D} (url : String) :
      Reachable c → Reachable (c.SetLoginUrl url)

/-- The reachable states of runs in which every token comes with a usable URL: a successful
login that returns a non-empty session id returns a non-empty absolute metadata server URL,
`UseExistingSession` with a non-empty token is given a non-empty absolute URL, and
`SetAccessToken` with a non-empty token is applied when the installed target is already
non-empty and absolute. -/
inductive ReachableChecked {D : Decls} : Client D → Prop
  | NewClient : ReachableChecked (NewClient D)
  | Login (t : Transport D) {c : Client D} (username password : String) :
      ReachableChecked c →
      (∀ r : LoginResult,
        t c.portType (.Login { Username := username, Password := password })
            = (some { LoginResult := r }, none) →
        r.SessionId ≠ "" → r.MetadataServerUrl ≠ "" ∧ IsAbs r.MetadataServerUrl = true) →
      ReachableChecked (c.Login t username password).2
  | UseExistingSession {c : Client D} (SessionId MetadataServerUrl : String) :
      ReachableChecked c →
      (SessionId ≠ "" → MetadataServerUrl ≠ "" ∧ IsAbs MetadataServerUrl = true) →
      ReachableChecked (c.UseExistingSession SessionId MetadataServerUrl)
  | SetAccessToken {c : Client D} (sid : String) :
      ReachableChecked c →
      (sid ≠ "" → c.portType.url ≠ "" ∧ IsAbs c.portType.url = true) →
      ReachableChecked (c.SetAccessToken sid)
  | SetApiVersion {c : Client D} (v : String) :
      ReachableChecked c → ReachableChecked (c.SetApiVersion v)
  | SetLoginUrl {c : Client D} (url : String) :
      ReachableChecked c → ReachableChecked (c.SetLoginUrl url)

/-! ## A concrete instance for evaluation -/

/-- An instance of the outside declarations: unit payloads and responses, string errors, and
a `ParseFloat` that always succeeds. -/
def D0 : Decls :=
  { DeployOptions := Unit
    ListMetadataQuery := Unit
    MetadataInterface := Unit
    RetrieveRequest := Unit
    RenameMetadata := Unit
    Response := fun _ => Unit
    error := String
    float64 := Unit
    ParseFloat := fun _ => ((), none)
    lit37 := () }

/-- A login result as a server would return it. -/
def sampleLoginResult : LoginResult :=
  { MetadataServerUrl := "https://na1.salesforce.com/services/Soap/m/50.0/00D"
    SessionId := "00D!sid" }

/-- A transport on which every call succeeds. -/
def okTransport : Transport D0 := fun _ r =>
  match r with
  | .Login _ => (some { LoginResult := sampleLoginResult }, none)
  | .Deploy _ => (some (), none)
  | .CheckDeployStatus _ => (some (), none)
  | .CancelDeploy _ => (some (), none)
  | .DescribeMetadata _ => (some (), none)
  | .DescribeValueType _ => (some (), none)
  | .ListMetadata _ => (some (), none)
  | .CreateMetadata _ => (some (), none)
  | .DeleteMetadata _ => (some (), none)
  | .ReadMetadata _ => (some (), none)
  | .Retrieve _ => (some (), none)
  | .RenameMetadata _ => (some (), none)
  | .UpdateMetadata _ => (some (), none)
  | .UpsertMetadata _ => (some (), none)
  | .DeployRecentValidation _ => (some (), none)

/-- A transport on which every call fails. -/
def failTransport : Transport D0 := fun _ _ => (none, some "connection refused")

example : EncodeToString [⟨77, by decide⟩, ⟨97, by decide⟩, ⟨110, by decide⟩] = "TWFu" := by
  decide
example : EncodeToString [⟨77, by decide⟩, ⟨97, by decide⟩] = "TWE=" := by decide
example : EncodeToString [⟨77, by decide⟩] = "TQ==" := by decide
example : DecodeString "TWE=" = some [⟨77, by decide⟩, ⟨97, by decide⟩] := by decide

theorem decodeMap_encodeIdx (i : Nat) (h : i < 64) : decodeMap (encodeIdx i) = some i := by
  interval_cases i <;> decide

theorem encodeIdx_ne_pad (i : Nat) (h : i < 64) : encodeIdx i ≠ StdPadding := by
  interval_cases i <;> decide

theorem and_0x3F (x : Nat) : x &&& 0x3F = x % 64 := Nat.and_pow_two_sub_one_eq_mod x 6

theorem shiftLeft_or_low (x y k : Nat) (h : y < 2 ^ k) : x <<< k ||| y = x * 2 ^ k + y := by
  rw [Nat.shiftLeft_eq, Nat.mul_comm x, Nat.mul_add_lt_is_or h]

theorem or_low (x y k : Nat) (h : y < 2 ^ k) : 2 ^ k * x ||| y = 2 ^ k * x + y :=
  (Nat.mul_add_lt_is_or h x).symm

theorem val3_eq (a b c : Nat) (hb : b < 256) (hc : c < 256) :
    a <<< 16 ||| b <<< 8 ||| c = a * 65536 + b * 256 + c := by
  have h1 : a <<< 16 ||| b <<< 8 = a * 65536 + b * 256 := by
    rw [Nat.shiftLeft_eq b 8]
    exact shiftLeft_or_low a (b * 2 ^ 8) 16 (by norm_num; omega)
  rw [h1]
  have h2 : a * 65536 + b * 256 = 2 ^ 8 * (a * 256 + b) := by norm_num; omega
  rw [h2, or_low _ c 8 (by norm_num; omega)]

theorem val2_eq (a b : Nat) (hb : b < 256) :
    a <<< 16 ||| b <<< 8 = a * 65536 + b * 256 := by
  rw [Nat.shiftLeft_eq b 8]
  exact shiftLeft_or_low a (b * 2 ^ 8) 16 (by norm_num; omega)

theorem sext2_eq (s0 s1 : Nat) (h1 : s1 < 64) :
    s0 <<< 18 ||| s1 <<< 12 = s0 * 262144 + s1 * 4096 := by
  rw [Nat.shiftLeft_eq s1 12]
  exact shiftLeft_or_low s0 (s1 * 2 ^ 12) 18 (by norm_num; omega)

theorem sext3_eq (s0 s1 s2 : Nat) (h1 : s1 < 64) (h2 : s2 < 64) :
    s0 <<< 18 ||| s1 <<< 12 ||| s2 <<< 6 = s0 * 262144 + s1 * 4096 + s2 * 64 := by
  rw [sext2_eq s0 s1 h1, Nat.shiftLeft_eq s2 6]
  have h : s0 * 262144 + s1 * 4096 = 2 ^ 12 * (s0 * 64 + s1) := by norm_num; omega
  rw [h, or_low _ (s2 * 2 ^ 6) 12 (by norm_num; omega)]

theorem sext4_eq (s0 s1 s2 s3 : Nat) (h1 : s1 < 64) (h2 : s2 < 64) (h3 : s3 < 64) :
    s0 <<< 18 ||| s1 <<< 12 ||| s2 <<< 6 ||| s3
      = s0 * 262144 + s1 * 4096 + s2 * 64 + s3 := by
  rw [sext3_eq s0 s1 s2 h1 h2]
  have h : s0 * 262144 + s1 * 4096 + s2 * 64 = 2 ^ 6 * (s0 * 4096 + s1 * 64 + s2) := by
    norm_num; omega
  rw [h, or_low _ s3 6 (by norm_num; omega)]

theorem Decode_quad (s0 s1 s2 s3 : Nat) (h0 : s0 < 64) (h1 : s1 < 64) (h2 : s2 < 64)
    (h3 : s3 < 64) (tl : List Char) :
    Decode (encodeIdx s0 :: encodeIdx s1 :: encodeIdx s2 :: encodeIdx s3 :: tl)
      = (Decode tl).map (fun r =>
          toByte ((s0 * 262144 + s1 * 4096 + s2 * 64 + s3) >>> 16) ::
          toByte ((s0 * 262144 + s1 * 4096 + s2 * 64 + s3) >>> 8) ::
          toByte (s0 * 262144 + s1 * 4096 + s2 * 64 + s3) :: r) := by
  rw [Decode]
  simp only [encodeIdx_ne_pad s3 h3, and_false, if_false, decodeMap_encodeIdx, h0, h1, h2, h3,
    sext4_eq s0 s1 s2 s3 h1 h2 h3]

theorem Decode_pad1 (s0 s1 s2 : Nat) (h0 : s0 < 64) (h1 : s1 < 64) (h2 : s2 < 64) :
    Decode [encodeIdx s0, encodeIdx s1, encodeIdx s2, StdPadding]
      = some [toByte ((s0 * 262144 + s1 * 4096 + s2 * 64) >>> 16),
          toByte ((s0 * 262144 + s1 * 4096 + s2 * 64) >>> 8)] := by
  rw [Decode]
  simp only [encodeIdx_ne_pad s2 h2, and_self, if_true, if_false, decodeMap_encodeIdx, h0, h1,
    h2, sext3_eq s0 s1 s2 h1 h2]

theorem Decode_pad2 (s0 s1 : Nat) (h0 : s0 < 64) (h1 : s1 < 64) :
    Decode [encodeIdx s0, encodeIdx s1, StdPadding, StdPadding]
      = some [toByte ((s0 * 262144 + s1 * 4096) >>> 16)] := by
  rw [Decode]
  simp only [and_self, if_true, decodeMap_encodeIdx, h0, h1, sext2_eq s0 s1 h1]

theorem Decode_Encode : ∀ buf : List Byte, Decode (Encode buf) = some buf
  | [] => by simp [Encode, Decode]
  | [a] => by
    have ha := a.isLt
    simp only [Encode, and_0x3F, Nat.shiftRight_eq_div_pow, Nat.shiftLeft_eq]
    rw [Decode_pad2 _ _ (Nat.mod_lt _ (by decide)) (Nat.mod_lt _ (by decide))]
    simp only [Nat.shiftRight_eq_div_pow, toByte, Option.some.injEq, List.cons.injEq,
      and_true]
    apply Fin.ext
    simp only
    omega
  | [a, b] => by
    have ha := a.isLt
    have hb := b.isLt
    simp only [Encode, val2_eq a.val b.val hb, and_0x3F, Nat.shiftRight_eq_div_pow]
    rw [Decode_pad1 _ _ _ (Nat.mod_lt _ (by decide)) (Nat.mod_lt _ (by decide))
      (Nat.mod_lt _ (by decide))]
    simp only [Nat.shiftRight_eq_div_pow, toByte, Option.some.injEq, List.cons.injEq,
      and_true]
    refine ⟨Fin.ext ?_, Fin.ext ?_⟩ <;> simp only <;> omega
  | a :: b :: c :: rest => by
    have ha := a.isLt
    have hb := b.isLt
    have hc := c.isLt
    have ih := Decode_Encode rest
    simp only [Encode, val3_eq a.val b.val c.val hb hc, and_0x3F, Nat.shiftRight_eq_div_pow]
    rw [Decode_quad _ _ _ _ (Nat.mod_lt _ (by decide)) (Nat.mod_lt _ (by decide))
      (Nat.mod_lt _ (by decide)) (Nat.mod_lt _ (by decide)), ih]
    simp only [Nat.shiftRight_eq_div_pow, toByte, Option.map_some', Option.some.injEq,
      List.cons.injEq, and_true]
    refine ⟨Fin.ext ?_, Fin.ext ?_, Fin.ext ?_⟩ <;> simp only <;> omega

theorem Encode_length : ∀ buf : List Byte, (Encode buf).length = 4 * ((buf.length + 2) / 3)
  | [] => by simp [Encode]
  | [_] => by simp [Encode]
  | [_, _] => by simp [Encode]
  | _ :: _ :: _ :: rest => by
    have ih := Encode_length rest
    simp only [Encode, List.length_cons, ih]
    omega

/-! ## Session operations -/

/-- C1: whenever the transport answers the login call with a response carrying login result
`r` and no error, `Login` returns no error, and afterwards the port's session header holds
exactly `r.SessionId`, its target is exactly `r.MetadataServerUrl`, the stored login result
is `r`, and `ApiVersion` and `LoginUrl` are what they were. -/
theorem Login_success_installs_session {D : Decls} (t : Transport D) (c : Client D)
    (username password : String) (r : LoginResult)
    (h : t c.portType (.Login { Username := username, Password := password })
      = (some { LoginResult := r }, none)) :
    (c.Login t username password).1 = .returned none ∧
    (c.Login t username password).2.portType.header = some { SessionId := r.SessionId } ∧
    (c.Login t username password).2.portType.url = r.MetadataServerUrl ∧
    (c.Login t username password).2.loginResult = some r ∧
    (c.Login t username password).2.ApiVersion = c.ApiVersion ∧
    (c.Login t username password).2.LoginUrl = c.LoginUrl := by
  simp only [Client.Login, MetadataPortType.Login, MetadataPortType.call, h,
    MetadataPortType.SetHeader, MetadataPortType.SetServerUrl, and_self]

/-- Witness for C1: a login against a transport that accepts every call. -/
theorem Login_success_installs_session_witness :
    (Client.Login okTransport (NewClient D0) "user" "secret").1 = .returned none ∧
    (Client.Login okTransport (NewClient D0) "user" "secret").2.portType.header
      = some { SessionId := "00D!sid" } ∧
    (Client.Login okTransport (NewClient D0) "user" "secret").2.portType.url
      = "https://na1.salesforce.com/services/Soap/m/50.0/00D" :=
  have h := Login_success_installs_session okTransport (NewClient D0) "user" "secret"
    sampleLoginResult rfl
  ⟨h.1, h.2.1, h.2.2.1⟩

/-- C2: whenever the transport answers the login call with an error `e`, `Login` returns
exactly `e`, and the port's session header, the port's target, the stored login result,
`ApiVersion`, `LoginUrl` (and `ServerUrl`) are the same as before the call. -/
theorem Login_failure_keeps_session {D : Decls} (t : Transport D) (c : Client D)
    (username password : String) (e : D.error)
    (h : (t c.portType (.Login { Username := username, Password := password })).2 = some e) :
    (c.Login t username password).1 = .returned (some e) ∧
    (c.Login t username password).2.portType.header = c.portType.header ∧
    (c.Login t username password).2.portType.url = c.portType.url ∧
    (c.Login t username password).2.loginResult = c.loginResult ∧
    (c.Login t username password).2.ApiVersion = c.ApiVersion ∧
    (c.Login t username password).2.LoginUrl = c.LoginUrl ∧
    (c.Login t username password).2.ServerUrl = c.ServerUrl := by
  simp only [Client.Login, MetadataPortType.Login, MetadataPortType.call, h, and_self]

/-- Witness for C2: a failed login on a client that already carries a session. -/
theorem Login_failure_keeps_session_witness :
    (Client.Login failTransport ((NewClient D0).UseExistingSession "tok" "https://a.example/m")
      "user" "secret").1 = .returned (some "connection refused") ∧
    (Client.Login failTransport ((NewClient D0).UseExistingSession "tok" "https://a.example/m")
      "user" "secret").2.portType.header = some { SessionId := "tok" } ∧
    (Client.Login failTransport ((NewClient D0).UseExistingSession "tok" "https://a.example/m")
      "user" "secret").2.portType.url = "https://a.example/m" :=
  have h := Login_failure_keeps_session failTransport
    ((NewClient D0).UseExistingSession "tok" "https://a.example/m") "user" "secret"
    "connection refused" rfl
  ⟨h.1, h.2.1, h.2.2.1⟩

/-- The port records a call with the header and target installed at the time and changes
neither. -/
theorem call_spec {D : Decls} (t : Transport D) (p : MetadataPortType D) (r : Request D) :
    (p.call t r).1 = t p r ∧
    (p.call t r).2.calls = p.calls ++ [{ header := p.header, url := p.url, request := r }] ∧
    (p.call t r).2.header = p.header ∧ (p.call t r).2.url = p.url :=
  ⟨rfl, rfl, rfl, rfl⟩

/-- Every invocation makes the port record exactly one more call, sent with the header and
target installed when the invocation starts. -/
theorem invoke_calls {D : Decls} (t : Transport D) (c : Client D) (inv : Invocation D) :
    ∃ r : Request D, (c.invoke t inv).portType.calls
      = c.portType.calls ++ [{ header := c.portType.header, url := c.portType.url, request := r }] := by
  cases inv with
  | Login username password =>
    refine ⟨.Login { Username := username, Password := password }, ?_⟩
    simp only [Client.invoke, Client.Login, MetadataPortType.Login, MetadataPortType.call]
    split
    · rfl
    · split <;> rfl
  | Deploy buf options => exact ⟨_, rfl⟩
  | CheckDeployStatus resultId includeDetails => exact ⟨_, rfl⟩
  | CancelDeploy processId => exact ⟨_, rfl⟩
  | DescribeMetadata => exact ⟨_, rfl⟩
  | DescribeValueType desc_type => exact ⟨_, rfl⟩
  | ListMetadata listMetadataQuery => exact ⟨_, rfl⟩
  | CreateMetadata metadata => exact ⟨_, rfl⟩
  | DeleteMetadata typeName fullNames => exact ⟨_, rfl⟩
  | ReadMetadata typeName fullNames => exact ⟨_, rfl⟩
  | Retrieve retrieveRequest => exact ⟨_, rfl⟩
  | RenameMetadata r => exact ⟨_, rfl⟩
  | UpdateMetadata metadata => exact ⟨_, rfl⟩
  | UpsertMetadata metadata => exact ⟨_, rfl⟩
  | DeployRecentValidation validationId => exact ⟨_, rfl⟩

/-- C3: for every client state and every pair of strings `(t, u)`, `UseExistingSession(t, u)`
is total, makes no transport call, and leaves the port with session header `t` and target
`u`; whatever operation is invoked next is dispatched as exactly one call with header `t` to
endpoint `u`. -/
theorem UseExistingSession_installs {D : Decls} (c : Client D) (tok u : String) :
    (c.UseExistingSession tok u).portType.calls = c.portType.calls ∧
    (c.UseExistingSession tok u).portType.header = some { SessionId := tok } ∧
    (c.UseExistingSession tok u).portType.url = u ∧
    ∀ (t : Transport D) (inv : Invocation D), ∃ r : Request D,
      ((c.UseExistingSession tok u).invoke t inv).portType.calls
        = c.portType.calls ++ [{ header := some { SessionId := tok }, url := u, request := r }] := by
  refine ⟨rfl, rfl, rfl, ?_⟩
  intro t inv
  exact invoke_calls t (c.UseExistingSession tok u) inv

/-- C4: `SetLoginUrl(h)` on a client whose `ApiVersion` is `v`, and `SetApiVersion(v)` on a
client whose `LoginUrl` is `h`, both leave the port's target at exactly
`"https://" + h + "/services/Soap/u/" + v`; the result does not depend on anything else of
the client or on the order of the two setters, and setting another version `w` afterwards
keeps the part up to and including `"/u/"` and replaces only the trailing version. -/
theorem endpoint_resolution {D : Decls} (c c2 : Client D) (h v w : String) :
    ({ c with ApiVersion := v }.SetLoginUrl h).portType.url
      = "https://" ++ h ++ "/services/Soap/u/" ++ v ∧
    ({ c with LoginUrl := h }.SetApiVersion v).portType.url
      = "https://" ++ h ++ "/services/Soap/u/" ++ v ∧
    ((c.SetLoginUrl h).SetApiVersion v).portType.url
      = ((c2.SetApiVersion v).SetLoginUrl h).portType.url ∧
    ((c.SetLoginUrl h).SetApiVersion v).portType.url
      = ("https://" ++ h ++ "/services/Soap/u/") ++ v ∧
    (((c.SetLoginUrl h).SetApiVersion v).SetApiVersion w).portType.url
      = ("https://" ++ h ++ "/services/Soap/u/") ++ w :=
  ⟨rfl, rfl, rfl, rfl, rfl⟩

/-- C5: for every client state and every string `t`, `SetAccessToken(t)` sets the port's
session header to `t` and changes nothing else: the port's target, `ApiVersion`, `LoginUrl`,
`ServerUrl` and the stored login result are the same as before, and the port has recorded no
new call. -/
theorem SetAccessToken_frame {D : Decls} (c : Client D) (tok : String) :
    (c.SetAccessToken tok).portType.header = some { SessionId := tok } ∧
    (c.SetAccessToken tok).portType.url = c.portType.url ∧
    (c.SetAccessToken tok).ApiVersion = c.ApiVersion ∧
    (c.SetAccessToken tok).LoginUrl = c.LoginUrl ∧
    (c.SetAccessToken tok).ServerUrl = c.ServerUrl ∧
    (c.SetAccessToken tok).loginResult = c.loginResult ∧
    (c.SetAccessToken tok).portType.calls = c.portType.calls ∧
    c.SetAccessToken tok
      = { c with portType := { c.portType with header := some { SessionId := tok } } } :=
  ⟨rfl, rfl, rfl, rfl, rfl, rfl, rfl, rfl⟩

/-! ## Dispatching operations -/

theorem encodeIdx_mem (i : Nat) (h : i < 64) : encodeIdx i ∈ encodeStd := by
  interval_cases i <;> decide

theorem Encode_chars : ∀ (buf : List Byte) (ch : Char), ch ∈ Encode buf →
    ch ∈ encodeStd ∨ ch = StdPadding
  | [], ch, h => by simp [Encode] at h
  | [a], ch, h => by
    simp only [Encode, and_0x3F, List.mem_cons, List.mem_singleton, List.not_mem_nil,
      or_false, or_self] at h
    rcases h with h | h | h
    · exact Or.inl (h ▸ encodeIdx_mem _ (Nat.mod_lt _ (by decide)))
    · exact Or.inl (h ▸ encodeIdx_mem _ (Nat.mod_lt _ (by decide)))
    · exact Or.inr h
  | [a, b], ch, h => by
    simp only [Encode, and_0x3F, List.mem_cons, List.mem_singleton, List.not_mem_nil,
      or_false] at h
    rcases h with h | h | h | h
    · exact Or.inl (h ▸ encodeIdx_mem _ (Nat.mod_lt _ (by decide)))
    · exact Or.inl (h ▸ encodeIdx_mem _ (Nat.mod_lt _ (by decide)))
    · exact Or.inl (h ▸ encodeIdx_mem _ (Nat.mod_lt _ (by decide)))
    · exact Or.inr h
  | a :: b :: c :: rest, ch, h => by
    simp only [Encode, and_0x3F, List.mem_cons] at h
    rcases h with h | h | h | h | h
    · exact Or.inl (h ▸ encodeIdx_mem _ (Nat.mod_lt _ (by decide)))
    · exact Or.inl (h ▸ encodeIdx_mem _ (Nat.mod_lt _ (by decide)))
    · exact Or.inl (h ▸ encodeIdx_mem _ (Nat.mod_lt _ (by decide)))
    · exact Or.inl (h ▸ encodeIdx_mem _ (Nat.mod_lt _ (by decide)))
    · exact Encode_chars rest ch h

/-- C6: for every byte sequence `buf` (the empty one included) and every options value,
`Deploy(buf, options)` hands the port exactly one request, whose `DeployOptions` is the given
options and whose `ZipFile` is the standard padded base64 text of `buf`: it consists of
alphabet and padding characters only, has four characters for every started group of three
bytes, and base64-decodes to exactly `buf`. -/
theorem Deploy_request_base64 {D : Decls} (t : Transport D) (c : Client D) (buf : List Byte)
    (options : Option D.DeployOptions) :
    ∃ zip : String,
      (c.Deploy t buf options).2.portType.calls
        = c.portType.calls ++
          [{ header := c.portType.header, url := c.portType.url,
             request := .Deploy { ZipFile := zip, DeployOptions := options } }] ∧
      zip = EncodeToString buf ∧
      DecodeString zip = some buf ∧
      zip.data.length = 4 * ((buf.length + 2) / 3) ∧
      ∀ ch ∈ zip.data, ch ∈ encodeStd ∨ ch = StdPadding :=
  ⟨EncodeToString buf, rfl, rfl, Decode_Encode buf, Encode_length buf, Encode_chars buf⟩

/-- C7, counterexample: `DeleteMetadata` and `ReadMetadata` called with an empty type name
on a fresh client over a transport that accepts every call return no error at all, and the
port has performed one call, of that operation. -/
theorem empty_typeName_reaches_transport :
    (Client.DeleteMetadata okTransport (NewClient D0) "" ["Foo__c"]).1.2 = none ∧
    ((Client.DeleteMetadata okTransport (NewClient D0) "" ["Foo__c"]).2.portType.calls.map
      (fun k => k.request.op)) = [Op.DeleteMetadata] ∧
    (Client.ReadMetadata okTransport (NewClient D0) "" ["Foo__c"]).1.2 = none ∧
    ((Client.ReadMetadata okTransport (NewClient D0) "" ["Foo__c"]).2.portType.calls.map
      (fun k => k.request.op)) = [Op.ReadMetadata] :=
  ⟨rfl, rfl, rfl, rfl⟩

/-- C7, amended: `ReadMetadata` and `DeleteMetadata` do not validate the type name; called
with an empty one they make exactly one transport call, whose request carries the empty
type name and the given full names, and return the pair that call produced, so any error is
the transport's. -/
theorem empty_typeName_is_forwarded {D : Decls} (t : Transport D) (c : Client D)
    (fullNames : List String) :
    Forwards t c (.DeleteMetadata { FullNames := fullNames, Type_ := "" })
      (c.DeleteMetadata t "" fullNames) ∧
    Forwards t c (.ReadMetadata { FullNames := fullNames, Type_ := "" })
      (c.ReadMetadata t "" fullNames) :=
  ⟨⟨rfl, rfl, rfl⟩, ⟨rfl, rfl, rfl⟩⟩

/-- C8: each of the fourteen facade operations other than `Login`, on every input, makes
exactly one transport call and returns exactly the (response, error) pair that call
produced; nothing else of the client changes. -/
theorem facade_forwards {D : Decls} (t : Transport D) (c : Client D) :
    (∀ buf options, Forwards t c
      (.Deploy { ZipFile := EncodeToString buf, DeployOptions := options })
      (c.Deploy t buf options)) ∧
    (∀ resultId includeDetails, Forwards t c
      (.CheckDeployStatus { AsyncProcessId := resultId, IncludeDetails := includeDetails })
      (c.CheckDeployStatus t resultId includeDetails)) ∧
    (∀ processId, Forwards t c (.CancelDeploy { AsyncProcessId := processId })
      (c.CancelDeploy t processId)) ∧
    Forwards t c (.DescribeMetadata { AsOfVersion := c.asOfVersion }) (c.DescribeMetadata t) ∧
    (∀ desc_type, Forwards t c (.DescribeValueType { Type_ := desc_type })
      (c.DescribeValueType t desc_type)) ∧
    (∀ queries, Forwards t c
      (.ListMetadata { Queries := queries, AsOfVersion := c.asOfVersion })
      (c.ListMetadata t queries)) ∧
    (∀ metadata, Forwards t c (.CreateMetadata { Metadata := metadata })
      (c.CreateMetadata t metadata)) ∧
    (∀ typeName fullNames, Forwards t c
      (.DeleteMetadata { FullNames := fullNames, Type_ := typeName })
      (c.DeleteMetadata t typeName fullNames)) ∧
    (∀ typeName fullNames, Forwards t c
      (.ReadMetadata { FullNames := fullNames, Type_ := typeName })
      (c.ReadMetadata t typeName fullNames)) ∧
    (∀ retrieveRequest, Forwards t c (.Retrieve { RetrieveRequest := retrieveRequest })
      (c.Retrieve t retrieveRequest)) ∧
    (∀ r, Forwards t c (.RenameMetadata r) (c.RenameMetadata t r)) ∧
    (∀ metadata, Forwards t c (.UpdateMetadata { Metadata := metadata })
      (c.UpdateMetadata t metadata)) ∧
    (∀ metadata, Forwards t c (.UpsertMetadata { Metadata := metadata })
      (c.UpsertMetadata t metadata)) ∧
    (∀ validationId, Forwards t c (.DeployRecentValidation { ValidationId := validationId })
      (c.DeployRecentValidation t validationId)) :=
  ⟨fun _ _ => ⟨rfl, rfl, rfl⟩, fun _ _ => ⟨rfl, rfl, rfl⟩, fun _ => ⟨rfl, rfl, rfl⟩,
    ⟨rfl, rfl, rfl⟩, fun _ => ⟨rfl, rfl, rfl⟩, fun _ => ⟨rfl, rfl, rfl⟩,
    fun _ => ⟨rfl, rfl, rfl⟩, fun _ _ => ⟨rfl, rfl, rfl⟩, fun _ _ => ⟨rfl, rfl, rfl⟩,
    fun _ => ⟨rfl, rfl, rfl⟩, fun _ => ⟨rfl, rfl, rfl⟩, fun _ => ⟨rfl, rfl, rfl⟩,
    fun _ => ⟨rfl, rfl, rfl⟩, fun _ => ⟨rfl, rfl, rfl⟩⟩

/-! ## The session invariant and the endpoint setters -/

theorem https_isAbs (x : String) : "https://" ++ x ≠ "" ∧ IsAbs ("https://" ++ x) = true := by
  constructor
  · intro h
    have h2 := congrArg String.data h
    simp [String.data_append] at h2
  · simp [IsAbs, String.data_append, schemeScan]

theorem loginEndpoint_isAbs {D : Decls} (c : Client D) :
    c.loginEndpoint ≠ "" ∧ IsAbs c.loginEndpoint = true := by
  have h : c.loginEndpoint
      = "https://" ++ (c.LoginUrl ++ ("/services/Soap/u/" ++ c.ApiVersion)) := by
    simp only [Client.loginEndpoint, String.append_assoc]
  rw [h]
  exact https_isAbs _

/-- C9, counterexample: `NewClient()` followed by `UseExistingSession("tok", "")` is a
reachable state whose access token is non-empty while the installed server URL is empty. -/
theorem UseExistingSession_breaks_invariant :
    Reachable ((NewClient D0).UseExistingSession "tok" "") ∧
    ((NewClient D0).UseExistingSession "tok" "").accessToken = "tok" ∧
    ((NewClient D0).UseExistingSession "tok" "").portType.url = "" ∧
    ¬ SessionInvariant ((NewClient D0).UseExistingSession "tok" "") :=
  ⟨.UseExistingSession "tok" "" .NewClient, rfl, rfl, fun h => (h (by decide)).1 rfl⟩

/-- C9, amended: in every client state reachable from `NewClient()` by the public session
operations in a run where each non-empty token meets a non-empty absolute URL (a successful
`Login` returns one with its session id, `UseExistingSession` is given one, `SetAccessToken`
is applied when one is installed), a non-empty installed access token implies that the
installed server URL is non-empty and absolute. -/
theorem checked_runs_keep_invariant {D : Decls} (c : Client D) (h : ReachableChecked c) :
    SessionInvariant c := by
  induction h with
  | NewClient => intro h; exact absurd rfl h
  | @Login t c username password _ guard ih =>
    generalize hres : t c.portType (.Login { Username := username, Password := password }) = res
    have hstep : (c.Login t username password).2
        = match res.2 with
          | some _ => { c with portType := (c.portType.call t
              (.Login { Username := username, Password := password })).2 }
          | none =>
            match res.1 with
            | none => { c with portType := (c.portType.call t
                (.Login { Username := username, Password := password })).2 }
            | some loginResponse =>
              { c with
                portType := (((c.portType.call t
                  (.Login { Username := username, Password := password })).2.SetHeader
                    { SessionId := loginResponse.LoginResult.SessionId }).SetServerUrl
                      loginResponse.LoginResult.MetadataServerUrl)
                loginResult := some loginResponse.LoginResult } := by
      simp only [Client.Login, MetadataPortType.Login, MetadataPortType.call, hres]
      rcases res with ⟨r1, r2⟩
      cases r2 with
      | some e => rfl
      | none =>
        cases r1 with
        | none => rfl
        | some resp => rfl
    rw [hstep]
    rcases res with ⟨r1, r2⟩
    cases r2 with
    | some e => exact ih
    | none =>
      cases r1 with
      | none => exact ih
      | some resp =>
        intro htok
        exact guard resp.LoginResult hres htok
  | @UseExistingSession c tok url _ guard _ =>
    intro htok
    exact guard htok
  | @SetAccessToken c sid _ guard _ =>
    intro htok
    exact guard htok
  | @SetApiVersion c v _ _ =>
    intro _
    exact loginEndpoint_isAbs { c with ApiVersion := v }
  | @SetLoginUrl c url _ _ =>
    intro _
    exact loginEndpoint_isAbs { c with LoginUrl := url }

/-- Witness for C9: a token installed after the login host has been set. -/
theorem checked_runs_keep_invariant_witness :
    SessionInvariant (((NewClient D0).SetLoginUrl "test.salesforce.com").SetAccessToken "tok") :=
  checked_runs_keep_invariant _
    (.SetAccessToken "tok" (.SetLoginUrl "test.salesforce.com" .NewClient)
      (fun _ => ⟨by decide, by decide⟩))

theorem SessionInstalled_state {D : Decls} (s : Client D) (tok u : String)
    (h : SessionInstalled s tok u) :
    s.portType.header = some { SessionId := tok } ∧ s.portType.url = u := by
  rcases h with ⟨c, rfl⟩ | ⟨t, c, username, password, hres, rfl⟩
  · exact ⟨rfl, rfl⟩
  · simp only [Client.Login, MetadataPortType.Login, MetadataPortType.call, hres,
      MetadataPortType.SetHeader, MetadataPortType.SetServerUrl, and_self]

/-- C10, counterexample: after `UseExistingSession("tok", u)` with `u` the login endpoint of
the default host and version, `SetApiVersion("50.0")` and `SetLoginUrl` of the default host
leave the target equal to `u`. -/
theorem endpoint_setter_may_keep_target :
    SessionInstalled ((NewClient D0).UseExistingSession "tok"
      "https://login.salesforce.com/services/Soap/u/50.0") "tok"
      "https://login.salesforce.com/services/Soap/u/50.0" ∧
    (((NewClient D0).UseExistingSession "tok"
      "https://login.salesforce.com/services/Soap/u/50.0").SetApiVersion "50.0").portType.url
      = "https://login.salesforce.com/services/Soap/u/50.0" ∧
    (((NewClient D0).UseExistingSession "tok"
      "https://login.salesforce.com/services/Soap/u/50.0").SetLoginUrl
        "login.salesforce.com").portType.url
      = "https://login.salesforce.com/services/Soap/u/50.0" :=
  ⟨Or.inl ⟨_, rfl⟩, by decide, by decide⟩

/-- C10, amended: in every client state in which a session with token `tok` and server URL
`u` has just been installed (by a successful `Login` or by `UseExistingSession`), and for
every version `v` and host `h`, `SetApiVersion(v)` and `SetLoginUrl(h)` leave the session
header unchanged and overwrite the port's target with the login endpoint
`"https://" + LoginUrl + "/services/Soap/u/" + ApiVersion` of the updated client; the target
is then no longer `u` unless `u` is that very endpoint, and the next operation is dispatched
with the session token to the login endpoint. -/
theorem endpoint_setters_override_session_target {D : Decls} (s : Client D) (tok u : String)
    (hs : SessionInstalled s tok u) (v h : String) :
    ((s.SetApiVersion v).portType.header = some { SessionId := tok } ∧
      (s.SetApiVersion v).portType.url = "https://" ++ s.LoginUrl ++ "/services/Soap/u/" ++ v ∧
      (s.SetApiVersion v).portType.url = (s.SetApiVersion v).loginEndpoint ∧
      (u ≠ (s.SetApiVersion v).loginEndpoint → (s.SetApiVersion v).portType.url ≠ u) ∧
      ∀ (t : Transport D) (inv : Invocation D), ∃ r : Request D,
        ((s.SetApiVersion v).invoke t inv).portType.calls
          = s.portType.calls ++ [{ header := some { SessionId := tok },
                                   url := (s.SetApiVersion v).loginEndpoint, request := r }]) ∧
    ((s.SetLoginUrl h).portType.header = some { SessionId := tok } ∧
      (s.SetLoginUrl h).portType.url
        = "https://" ++ h ++ "/services/Soap/u/" ++ s.ApiVersion ∧
      (s.SetLoginUrl h).portType.url = (s.SetLoginUrl h).loginEndpoint ∧
      (u ≠ (s.SetLoginUrl h).loginEndpoint → (s.SetLoginUrl h).portType.url ≠ u) ∧
      ∀ (t : Transport D) (inv : Invocation D), ∃ r : Request D,
        ((s.SetLoginUrl h).invoke t inv).portType.calls
          = s.portType.calls ++ [{ header := some { SessionId := tok },
                                   url := (s.SetLoginUrl h).loginEndpoint, request := r }]) := by
  obtain ⟨hh, _⟩ := SessionInstalled_state s tok u hs
  refine ⟨⟨hh, rfl, rfl, fun hne heq => hne heq.symm, ?_⟩,
    ⟨hh, rfl, rfl, fun hne heq => hne heq.symm, ?_⟩⟩
  · intro t inv
    obtain ⟨r, hr⟩ := invoke_calls t (s.SetApiVersion v) inv
    refine ⟨r, ?_⟩
    rw [hr, ← hh]
    rfl
  · intro t inv
    obtain ⟨r, hr⟩ := invoke_calls t (s.SetLoginUrl h) inv
    refine ⟨r, ?_⟩
    rw [hr, ← hh]
    rfl

/-- Witness for C10: a logged-in client whose API version is then changed. -/
theorem endpoint_setters_override_session_target_witness :
    ((Client.Login okTransport (NewClient D0) "user" "secret").2.SetApiVersion
        "51.0").portType.header = some { SessionId := "00D!sid" } ∧
    ((Client.Login okTransport (NewClient D0) "user" "secret").2.SetApiVersion
        "51.0").portType.url = "https://login.salesforce.com/services/Soap/u/51.0" :=
  have hw := endpoint_setters_override_session_target
    (Client.Login okTransport (NewClient D0) "user" "secret").2 "00D!sid"
    "https://na1.salesforce.com/services/Soap/m/50.0/00D"
    (Or.inr ⟨okTransport, NewClient D0, "user", "secret", rfl, rfl⟩) "51.0"
    "test.salesforce.com"
  ⟨hw.1.1, hw.1.2.1⟩

end Metaforce
